import Mathlib

/-!
Shallow embedding of `src/index.js` (vm-manager): a CLI that starts, stops,
mounts and unmounts VirtualBox VMs described by a JSON config file.

Modelling conventions:
* A JS object field that may be absent is an `Option`; JS `undefined` flowing
  into `util.format('%s', ...)` renders as the string "undefined" (`fmtS`),
  and into `%d` as "NaN" (`fmtD`).
* `exec` results are modelled by `ExecResult`: `error` is `none` when the
  child process exited 0 (Node passes `null`), otherwise `some code`;
  `stdout` / `stderr` are the captured streams (`Option` mirrors the
  source's `!== null` checks).
* Observable behaviour is a trace of `Event`s: console.log lines (`output`,
  colors elided), console.error lines (`errorMsg`), the config-file read
  (`readConfig`), and spawned external commands (`exec cmd delayMs`, where
  `delayMs` is the setTimeout delay before the spawn, 0 when spawned
  immediately).
* Callback chaining (`startAndMountVM`, `unmountAndStopVM`) is modelled by
  passing the callback as an optional function from the (aliased, possibly
  mutated) record to its trace and final record.
* The mutation of the loaded config `VMS` through the record alias `vm` is
  modelled by each operation returning the final record, which the top-level
  `action` writes back into the mapping at the looked-up key.
-/

set_option autoImplicit false

namespace VMManager

/-- A VM record from the JSON config file (§3 of the spec). Absent JSON
fields are `none`. `ssh_port` and `mount_delay` are JSON numbers. -/
structure VMRecord where
  name : Option String
  username : Option String
  mount_point_host : Option String
  hostname : Option String
  ssh_port : Option Int
  mount_point_remote : Option String
  mount_delay : Option Int
  deriving Repr, DecidableEq

/-- Result of one `child_process.exec` invocation. -/
structure ExecResult where
  error : Option Int
  stdout : Option String
  stderr : Option String
  deriving Repr, DecidableEq

/-- One observable step of the program. -/
inductive Event where
  | readConfig : Event
  | output : String → Event
  | errorMsg : String → Event
  | exec : String → Int → Event
  deriving Repr, DecidableEq

/-- `util.format('%s', v)`: an absent (undefined) value renders as
"undefined". -/
def fmtS (v : Option String) : String :=
  match v with
  | some s => s
  | none => "undefined"

/-- `util.format('%d', v)`: an absent (undefined) value renders as "NaN". -/
def fmtD (v : Option Int) : String :=
  match v with
  | some n => toString n
  | none => "NaN"

/-- `var MOUNT_DELAY = 10; // Default 10 secs` -/
def MOUNT_DELAY : Int := 10

/-- `if (x !== null) console.log(chalk...(x));` — log a captured stream when
present. -/
def logOpt (s : Option String) : List Event :=
  match s with
  | some str => [Event.output str]
  | none => []

/-- The failure test used after every `exec`:
`error !== null && error['code'] == 1`. -/
def errorIsFailure (e : Option Int) : Bool :=
  match e with
  | some c => c == 1
  | none => false

/-- `makeErrorMsg(error, val)`: color markup elided; `val` is dropped when
falsy (absent or the empty string), per `(val ? chalk.magenta(' ' + val) : '')`. -/
def makeErrorMsg (error : String) (val : Option String) : String :=
  "ERROR: " ++ error ++
    (match val with
     | some v => if v = "" then "" else " " ++ v
     | none => "")

/-- `getUserHome()`: `process.env.HOME || process.env.USERPROFILE` — an empty
string is falsy in JS, so it falls through to USERPROFILE. -/
def getUserHome (home userprofile : Option String) : Option String :=
  match home with
  | some h => if h = "" then userprofile else some h
  | none => userprofile

/-- `isMountableVM(vm)`: `_.has(vm, 'username') && _.has(vm, 'mount_point_host')`. -/
def isMountableVM (vm : VMRecord) : Bool :=
  vm.username.isSome && vm.mount_point_host.isSome

/-- `startVM(vm, callback)`. Spawns the Start command; on completion logs
stdout and stderr, reports failure when the error has code 1 (and then
returns without calling the callback), otherwise prints the success line and
invokes the callback when supplied. Returns the trace and the final record
(the callback may mutate the shared record). -/
def startVM (vm : VMRecord) (r : ExecResult)
    (callback : Option (VMRecord → List Event × VMRecord)) :
    List Event × VMRecord :=
  let cmd := "vboxmanage startvm " ++ fmtS vm.name ++ " --type headless"
  let pre := Event.exec cmd 0 :: (logOpt r.stdout ++ logOpt r.stderr)
  if errorIsFailure r.error then
    (pre ++ [Event.errorMsg (makeErrorMsg "Failed to start VM" none)], vm)
  else
    match callback with
    | some cb =>
      let res := cb vm
      (pre ++ Event.output "Yo! VM is up and running." :: res.1, res.2)
    | none =>
      (pre ++ [Event.output "Yo! VM is up and running."], vm)

/-- `stopVM(vm)`. Logs "Stopping VM...", spawns the Stop command; on failure
(code 1) logs stderr in red and reports the error, otherwise logs stderr in
gray (poweroff progress) and prints "Bye!". -/
def stopVM (vm : VMRecord) (r : ExecResult) : List Event × VMRecord :=
  let cmd := "vboxmanage controlvm " ++ fmtS vm.name ++ " poweroff"
  let pre := Event.output "Stopping VM..." :: Event.exec cmd 0 :: logOpt r.stderr
  if errorIsFailure r.error then
    (pre ++ [Event.errorMsg (makeErrorMsg "Failed to stop VM" none)], vm)
  else
    (pre ++ [Event.output "Bye!"], vm)

/-- `mountVM(vm)`. Writes the defaults for `ssh_port` (22), `hostname`
("localhost") and `mount_point_remote` (`/home/<username>/`) into the record
when absent, formats the sshfs command from the (now defaulted) record, logs
"Mounting VM...", and spawns the command after `mount_delay` (default
`MOUNT_DELAY`) seconds via setTimeout; on completion logs stderr and
classifies the result. Returns the trace and the mutated record. -/
def mountVM (vm : VMRecord) (r : ExecResult) : List Event × VMRecord :=
  let vm1 := if vm.ssh_port.isSome then vm else { vm with ssh_port := some 22 }
  let vm2 := if vm1.hostname.isSome then vm1 else { vm1 with hostname := some "localhost" }
  let vm3 :=
    if vm2.mount_point_remote.isSome then vm2
    else { vm2 with mount_point_remote := some ("/home/" ++ fmtS vm2.username ++ "/") }
  let cmd := "sshfs -p " ++ fmtD vm3.ssh_port ++ " " ++ fmtS vm3.username ++ "@" ++
    fmtS vm3.hostname ++ ":" ++ fmtS vm3.mount_point_remote ++ " " ++
    fmtS vm3.mount_point_host
  let delay := vm3.mount_delay.getD MOUNT_DELAY
  let tail :=
    logOpt r.stderr ++
      (if errorIsFailure r.error then
        [Event.errorMsg (makeErrorMsg "Failed to mount VM" none)]
      else
        [Event.output ("VM mounted at " ++ fmtS vm3.mount_point_host)])
  (Event.output "Mounting VM..." :: Event.exec cmd (delay * 1000) :: tail, vm3)

/-- `unmountVM(vm, callback)`. Logs "Unmounting VM...", spawns the Unmount
command; on completion logs stderr, reports failure or success, and in either
case invokes the callback when supplied. -/
def unmountVM (vm : VMRecord) (r : ExecResult)
    (callback : Option (VMRecord → List Event × VMRecord)) :
    List Event × VMRecord :=
  let cmd := "umount -f " ++ fmtS vm.mount_point_host
  let pre := Event.output "Unmounting VM..." :: Event.exec cmd 0 :: logOpt r.stderr
  let report :=
    if errorIsFailure r.error then
      [Event.errorMsg (makeErrorMsg "Failed to unmount VM" none)]
    else
      [Event.output "VM has been unmounted."]
  match callback with
  | some cb =>
    let res := cb vm
    (pre ++ report ++ res.1, res.2)
  | none =>
    (pre ++ report, vm)

/-- `startAndMountVM(vm)`: `startVM(vm, function(){ mountVM(vm); })`.
`rS` is the Start exec's result, `rM` the Mount exec's result (consumed only
when the callback runs). -/
def startAndMountVM (vm : VMRecord) (rS rM : ExecResult) : List Event × VMRecord :=
  startVM vm rS (some (fun v => mountVM v rM))

/-- `unmountAndStopVM(vm)`: `unmountVM(vm, function(){ stopVM(vm); })`. -/
def unmountAndStopVM (vm : VMRecord) (rU rS : ExecResult) : List Event × VMRecord :=
  unmountVM vm rU (some (fun v => stopVM v rS))

/-- The loaded configuration: a JSON object mapping VM names to records. -/
abbrev Config := List (String × VMRecord)

/-- JS property lookup `VMS[key]` (`_.has` agrees with it: the key is present
iff the lookup yields a record). -/
def configGet : Config → String → Option VMRecord
  | [], _ => none
  | p :: rest, k => if p.1 = k then some p.2 else configGet rest k

/-- Write-back of the mutation of the record aliased at `k` into the mapping. -/
def configSet (m : Config) (k : String) (v : VMRecord) : Config :=
  m.map (fun p => if p.1 = k then (p.1, v) else p)

/-- State of the config file on disk, as the program observes it:
absent, present but not parseable as JSON (`readFileSync` with
`{throws: false}` yields null), or parsed. -/
inductive ConfigFile where
  | missing : ConfigFile
  | unparsable : ConfigFile
  | parsed : Config → ConfigFile
  deriving Repr, DecidableEq

/-- The four-way `if (operation === ...)` chain at the end of the action
handler, acting on the validated record `vm`. `r1` is the result of the
first exec spawned, `r2` of the second (when any). -/
def dispatch (operation : String) (vm : VMRecord) (r1 r2 : ExecResult) :
    List Event × VMRecord :=
  if operation = "start" then
    if isMountableVM vm then startAndMountVM vm r1 r2 else startVM vm r1 none
  else if operation = "stop" then
    if isMountableVM vm then unmountAndStopVM vm r1 r2 else stopVM vm r1
  else if operation = "mount" then
    if isMountableVM vm = false then
      ([Event.errorMsg (makeErrorMsg "Missing mount config." none)], vm)
    else mountVM vm r1
  else
    if isMountableVM vm = false then
      ([Event.errorMsg (makeErrorMsg "Missing mount config." none)], vm)
    else unmountVM vm r1 none

/-- The top-level `program.action` handler. `operation` and `vmName` are the
CLI arguments (`vmName = none` when the optional argument is omitted; JS
coerces the `undefined` key to "undefined" in `_.has`/`VMS[vmName]`, hence
`fmtS vmName`). `home`/`userprofile` are the environment variables. `file` is
the config file's state; `r1` is the result of the first exec the operation
spawns and `r2` of the second (when any). Returns the event trace and the
final config-file state (the mapping with the record's mutation written
back). -/
def action (operation : String) (vmName : Option String)
    (home userprofile : Option String) (file : ConfigFile)
    (r1 r2 : ExecResult) : List Event × ConfigFile :=
  if (["start", "stop", "mount", "unmount"] : List String).contains operation = false then
    ([Event.errorMsg (makeErrorMsg "Invalid operation" (some operation))], file)
  else
    let configFilePath := fmtS (getUserHome home userprofile) ++ "/vvm.config.json"
    match file with
    | ConfigFile.missing =>
      ([Event.errorMsg (makeErrorMsg "Could not find config file " (some configFilePath))],
        ConfigFile.missing)
    | ConfigFile.unparsable =>
      ([Event.readConfig,
        Event.errorMsg (makeErrorMsg "Failed to parse config file " (some configFilePath))],
        ConfigFile.unparsable)
    | ConfigFile.parsed vms =>
      let key := fmtS vmName
      match configGet vms key with
      | none =>
        (Event.readConfig :: [Event.errorMsg (makeErrorMsg "No config available for" vmName)],
          ConfigFile.parsed vms)
      | some vm =>
        if vm.name.isNone then
          (Event.readConfig ::
            [Event.errorMsg (makeErrorMsg "Incorrect config - VM name missing" none)],
            ConfigFile.parsed vms)
        else
          let res := dispatch operation vm r1 r2
          (Event.readConfig :: res.1, ConfigFile.parsed (configSet vms key res.2))

/-- The external commands spawned along a trace, in order, with their
setTimeout delays (ms). -/
def execsOf : List Event → List (String × Int)
  | [] => []
  | Event.exec c d :: rest => (c, d) :: execsOf rest
  | Event.readConfig :: rest => execsOf rest
  | Event.output _ :: rest => execsOf rest
  | Event.errorMsg _ :: rest => execsOf rest

/-! ### Helper lemmas -/

@[simp]
theorem fmtS_some (s : String) : fmtS (some s) = s := rfl

@[simp]
theorem fmtS_none : fmtS none = "undefined" := rfl

@[simp]
theorem fmtD_some (n : Int) : fmtD (some n) = toString n := rfl

@[simp]
theorem execsOf_nil : execsOf [] = [] := rfl

@[simp]
theorem execsOf_cons_exec (c : String) (d : Int) (rest : List Event) :
    execsOf (Event.exec c d :: rest) = (c, d) :: execsOf rest := rfl

@[simp]
theorem execsOf_cons_readConfig (rest : List Event) :
    execsOf (Event.readConfig :: rest) = execsOf rest := rfl

@[simp]
theorem execsOf_cons_output (s : String) (rest : List Event) :
    execsOf (Event.output s :: rest) = execsOf rest := rfl

@[simp]
theorem execsOf_cons_errorMsg (s : String) (rest : List Event) :
    execsOf (Event.errorMsg s :: rest) = execsOf rest := rfl

@[simp]
theorem execsOf_append (l1 l2 : List Event) :
    execsOf (l1 ++ l2) = execsOf l1 ++ execsOf l2 := by
  induction l1 with
  | nil => rfl
  | cons e rest ih => cases e <;> simp [ih]

@[simp]
theorem execsOf_logOpt (s : Option String) : execsOf (logOpt s) = [] := by
  cases s <;> rfl

/-- The full sshfs command string formatted by `mountVM` after defaulting,
expressed by the defaults directly. -/
def mountCmdStr (vm : VMRecord) : String :=
  "sshfs -p " ++ toString (vm.ssh_port.getD 22) ++ " " ++ fmtS vm.username ++ "@" ++
    vm.hostname.getD "localhost" ++ ":" ++
    vm.mount_point_remote.getD ("/home/" ++ fmtS vm.username ++ "/") ++ " " ++
    fmtS vm.mount_point_host

theorem mountVM_execs (vm : VMRecord) (r : ExecResult) :
    execsOf (mountVM vm r).1 =
      [(mountCmdStr vm, vm.mount_delay.getD MOUNT_DELAY * 1000)] := by
  rcases hp : vm.ssh_port with _ | p <;> rcases hh : vm.hostname with _ | h <;>
    rcases hm : vm.mount_point_remote with _ | m <;>
      simp [mountVM, mountCmdStr, hp, hh, hm, fmtD] <;>
        cases errorIsFailure r.error <;> simp

theorem configGet_configSet_ne (m : Config) (k k' : String) (v : VMRecord)
    (h : k' ≠ k) : configGet (configSet m k v) k' = configGet m k' := by
  induction m with
  | nil => rfl
  | cons p rest ih =>
    by_cases hp : p.1 = k
    · have hkk' : ¬ k = k' := fun hc => h hc.symm
      simp [configSet, configGet, hp, hkk'] at ih ⊢
      exact ih
    · by_cases hp' : p.1 = k'
      · simp [configSet, configGet, hp, hp', h]
      · simp [configSet, configGet, hp, hp'] at ih ⊢
        exact ih

theorem configGet_configSet_self (m : Config) (k : String) (v vm : VMRecord)
    (h : configGet m k = some vm) : configGet (configSet m k v) k = some v := by
  induction m with
  | nil => simp [configGet] at h
  | cons p rest ih =>
    by_cases hp : p.1 = k
    · simp [configSet, configGet, hp]
    · simp [configGet, hp] at h
      simp [configSet, configGet, hp] at ih ⊢
      exact ih h

/-- The write-set of a single operation on the record it aliases: the three
default-value fields may only change from absent to their default, and every
other field is untouched. -/
def FrameOK (vm vm' : VMRecord) : Prop :=
  vm'.name = vm.name ∧ vm'.username = vm.username ∧
  vm'.mount_point_host = vm.mount_point_host ∧ vm'.mount_delay = vm.mount_delay ∧
  (vm'.ssh_port = vm.ssh_port ∨ (vm.ssh_port = none ∧ vm'.ssh_port = some 22)) ∧
  (vm'.hostname = vm.hostname ∨ (vm.hostname = none ∧ vm'.hostname = some "localhost")) ∧
  (vm'.mount_point_remote = vm.mount_point_remote ∨
    (vm.mount_point_remote = none ∧
      vm'.mount_point_remote = some ("/home/" ++ fmtS vm.username ++ "/")))

theorem FrameOK_refl (vm : VMRecord) : FrameOK vm vm := by
  refine ⟨rfl, rfl, rfl, rfl, Or.inl rfl, Or.inl rfl, Or.inl rfl⟩

theorem mountVM_frame (vm : VMRecord) (r : ExecResult) :
    FrameOK vm (mountVM vm r).2 := by
  rcases hp : vm.ssh_port with _ | p <;> rcases hh : vm.hostname with _ | h <;>
    rcases hm : vm.mount_point_remote with _ | m <;>
      simp [mountVM, FrameOK, hp, hh, hm]

@[simp]
theorem startVM_record (vm : VMRecord) (r : ExecResult) :
    (startVM vm r none).2 = vm := by
  cases h : errorIsFailure r.error <;> simp [startVM, h]

@[simp]
theorem stopVM_record (vm : VMRecord) (r : ExecResult) :
    (stopVM vm r).2 = vm := by
  cases h : errorIsFailure r.error <;> simp [stopVM, h]

@[simp]
theorem unmountVM_record_none (vm : VMRecord) (r : ExecResult) :
    (unmountVM vm r none).2 = vm := by
  simp [unmountVM]

theorem startAndMountVM_frame (vm : VMRecord) (rS rM : ExecResult) :
    FrameOK vm (startAndMountVM vm rS rM).2 := by
  cases h : errorIsFailure rS.error
  · simpa [startAndMountVM, startVM, h] using mountVM_frame vm rM
  · simpa [startAndMountVM, startVM, h] using FrameOK_refl vm

theorem unmountAndStopVM_record (vm : VMRecord) (rU rS : ExecResult) :
    (unmountAndStopVM vm rU rS).2 = vm := by
  cases h : errorIsFailure rU.error <;> simp [unmountAndStopVM, unmountVM, h]

theorem dispatch_frame (operation : String) (vm : VMRecord) (r1 r2 : ExecResult) :
    FrameOK vm (dispatch operation vm r1 r2).2 := by
  by_cases h1 : operation = "start"
  · by_cases hm : isMountableVM vm
    · simpa [dispatch, h1, hm] using startAndMountVM_frame vm r1 r2
    · simpa [dispatch, h1, hm] using FrameOK_refl vm
  by_cases h2 : operation = "stop"
  · by_cases hm : isMountableVM vm
    · simpa [dispatch, h1, h2, hm, unmountAndStopVM_record vm r1 r2] using FrameOK_refl vm
    · simpa [dispatch, h1, h2, hm] using FrameOK_refl vm
  by_cases h3 : operation = "mount"
  · by_cases hm : isMountableVM vm
    · simpa [dispatch, h1, h2, h3, hm] using mountVM_frame vm r1
    · simpa [dispatch, h1, h2, h3, hm] using FrameOK_refl vm
  by_cases hm : isMountableVM vm
  · simpa [dispatch, h1, h2, h3, hm] using FrameOK_refl vm
  · simpa [dispatch, h1, h2, h3, hm] using FrameOK_refl vm

/-! ### Concrete fixtures (the spec's worked example in §8) -/

/-- The record of the spec's example config
`{"dev": {"name": "dev-vm", "username": "alice", "mount_point_host": "/mnt/dev"}}`. -/
def devVM : VMRecord :=
  { name := some "dev-vm", username := some "alice", mount_point_host := some "/mnt/dev",
    hostname := none, ssh_port := none, mount_point_remote := none, mount_delay := none }

/-- A record with only the required identifier: not mountable. -/
def bareVM : VMRecord :=
  { name := some "bare-vm", username := none, mount_point_host := none,
    hostname := none, ssh_port := none, mount_point_remote := none, mount_delay := none }

/-- The spec's example config. -/
def devConfig : Config := [("dev", devVM)]

/-- A two-entry config, for frame-condition checks. -/
def twoConfig : Config := [("dev", devVM), ("bare", bareVM)]

/-- An exec result for a child process that exited 0. -/
def execOK : ExecResult := { error := none, stdout := some "", stderr := some "" }

/-- An exec result for a child process that exited 1. -/
def execFail : ExecResult := { error := some 1, stdout := none, stderr := some "boom" }

/-! ### The claims -/

/-- C5: a VM record is classified mountable iff both the `username` field and
the `mount_point_host` field are present; a record missing either is not
mountable, for every combination of fields. -/
theorem mountable_iff_username_and_host (vm : VMRecord) :
    isMountableVM vm = true ↔
      vm.username.isSome = true ∧ vm.mount_point_host.isSome = true := by
  simp [isMountableVM]

/-- C2: every external command invocation (Start, Stop, Mount, Unmount) is
classified a failure iff the process error is present with exit code exactly
1; any other outcome — including a non-null error with any other exit code —
is reported as success (the failure line is printed exactly when the error is
`some 1`). -/
theorem failure_iff_error_code_one (vm : VMRecord) (r : ExecResult) :
    (errorIsFailure r.error = true ↔ r.error = some 1) ∧
    (Event.errorMsg (makeErrorMsg "Failed to start VM" none) ∈ (startVM vm r none).1 ↔
      r.error = some 1) ∧
    (Event.errorMsg (makeErrorMsg "Failed to stop VM" none) ∈ (stopVM vm r).1 ↔
      r.error = some 1) ∧
    (Event.errorMsg (makeErrorMsg "Failed to mount VM" none) ∈ (mountVM vm r).1 ↔
      r.error = some 1) ∧
    (Event.errorMsg (makeErrorMsg "Failed to unmount VM" none) ∈ (unmountVM vm r none).1 ↔
      r.error = some 1) := by
  rcases r with ⟨e, so, se⟩
  rcases e with _ | c
  · cases so <;> cases se <;>
      simp [startVM, stopVM, mountVM, unmountVM, errorIsFailure, logOpt]
  · by_cases hc : c = 1 <;> cases so <;> cases se <;>
      simp [startVM, stopVM, mountVM, unmountVM, errorIsFailure, logOpt, hc]

/-- C1: `start` on a mountable record spawns the Start command for the
record's name and, when Start reports success, spawns the Mount command with
the configured delay (default `MOUNT_DELAY` seconds, in ms via setTimeout)
and the defaults substituted: `ssh_port` 22, `hostname` "localhost",
`mount_point_remote` `/home/<username>/`. The spawned commands are exactly
Start then Mount, in that order. -/
theorem start_mountable_start_then_mount (vmName home up : Option String)
    (vms : Config) (vm : VMRecord) (nm u mph : String) (rS rM : ExecResult)
    (hvm : configGet vms (fmtS vmName) = some vm)
    (hn : vm.name = some nm) (hu : vm.username = some u)
    (hm : vm.mount_point_host = some mph)
    (hok : errorIsFailure rS.error = false) :
    execsOf (action "start" vmName home up (ConfigFile.parsed vms) rS rM).1 =
      [("vboxmanage startvm " ++ nm ++ " --type headless", 0),
       ("sshfs -p " ++ toString (vm.ssh_port.getD 22) ++ " " ++ u ++ "@" ++
          vm.hostname.getD "localhost" ++ ":" ++
          vm.mount_point_remote.getD ("/home/" ++ u ++ "/") ++ " " ++ mph,
        vm.mount_delay.getD MOUNT_DELAY * 1000)] := by
  have hmnt : isMountableVM vm = true := by simp [isMountableVM, hu, hm]
  have hexec := mountVM_execs vm rM
  simp [action, dispatch, hvm, hn, hmnt, startAndMountVM, startVM, hok, hexec,
    mountCmdStr, hu, hm]

/-- C1 witness: the spec's example — config
`{"dev": {"name": "dev-vm", "username": "alice", "mount_point_host": "/mnt/dev"}}`,
invocation `start dev` with Start succeeding: Start is spawned for `dev-vm`,
then Mount `-p 22 alice@localhost:/home/alice/ /mnt/dev` after 10 s. -/
theorem start_mountable_start_then_mount_witness :
    execsOf (action "start" (some "dev") none none (ConfigFile.parsed devConfig)
        execOK execOK).1 =
      [("vboxmanage startvm dev-vm --type headless", 0),
       ("sshfs -p 22 alice@localhost:/home/alice/ /mnt/dev", 10000)] := by
  have h := start_mountable_start_then_mount (some "dev") none none devConfig devVM
    "dev-vm" "alice" "/mnt/dev" execOK execOK rfl rfl rfl rfl rfl
  simpa [devVM, MOUNT_DELAY] using h

/-- C4: `start` on a mountable record where Start reports failure (exit code
1) never spawns Mount: the only spawned command is Start. -/
theorem start_failure_never_mounts (vmName home up : Option String)
    (vms : Config) (vm : VMRecord) (rS rM : ExecResult)
    (hvm : configGet vms (fmtS vmName) = some vm)
    (hn : vm.name.isNone = false)
    (hmnt : isMountableVM vm = true)
    (hfail : errorIsFailure rS.error = true) :
    execsOf (action "start" vmName home up (ConfigFile.parsed vms) rS rM).1 =
      [("vboxmanage startvm " ++ fmtS vm.name ++ " --type headless", 0)] := by
  simp [action, dispatch, hvm, hn, hmnt, startAndMountVM, startVM, hfail]

/-- C4 witness: with the example config and a Start exec exiting 1, the trace
spawns only the Start command — no Mount. -/
theorem start_failure_never_mounts_witness :
    execsOf (action "start" (some "dev") none none (ConfigFile.parsed devConfig)
        execFail execOK).1 =
      [("vboxmanage startvm dev-vm --type headless", 0)] := by
  have h := start_failure_never_mounts (some "dev") none none devConfig devVM
    execFail execOK rfl rfl rfl rfl
  simpa [devVM] using h

/-- C3: `stop` on a mountable record spawns exactly Unmount followed by Stop,
whatever Unmount's exec result was; on a non-mountable record carrying a
`name` field it spawns Stop alone. -/
theorem stop_unmount_then_stop (vmName home up : Option String)
    (vms : Config) (vm : VMRecord) (nm : String) (rU rS : ExecResult)
    (hvm : configGet vms (fmtS vmName) = some vm)
    (hn : vm.name = some nm) :
    (isMountableVM vm = true →
      execsOf (action "stop" vmName home up (ConfigFile.parsed vms) rU rS).1 =
        [("umount -f " ++ fmtS vm.mount_point_host, 0),
         ("vboxmanage controlvm " ++ nm ++ " poweroff", 0)]) ∧
    (isMountableVM vm = false →
      execsOf (action "stop" vmName home up (ConfigFile.parsed vms) rU rS).1 =
        [("vboxmanage controlvm " ++ nm ++ " poweroff", 0)]) := by
  constructor <;> intro hmnt <;>
    cases hu : errorIsFailure rU.error <;> cases hs : errorIsFailure rS.error <;>
      simp [action, dispatch, hvm, hn, hmnt, unmountAndStopVM, unmountVM, stopVM, hu, hs]

/-- C3 witness: `stop dev` on the example (mountable) config with a failing
Unmount still spawns Unmount and then Stop. -/
theorem stop_unmount_then_stop_witness :
    execsOf (action "stop" (some "dev") none none (ConfigFile.parsed devConfig)
        execFail execOK).1 =
      [("umount -f /mnt/dev", 0), ("vboxmanage controlvm dev-vm poweroff", 0)] := by
  have h := (stop_unmount_then_stop (some "dev") none none devConfig devVM
    "dev-vm" execFail execOK rfl rfl).1 rfl
  simpa [devVM] using h

/-- C6: any operation string outside {start, stop, mount, unmount} is
rejected with the "Invalid operation" error as the whole observable
behaviour: the config file is never read and no external command is
spawned. -/
theorem invalid_operation_rejected (operation : String) (vmName home up : Option String)
    (file : ConfigFile) (r1 r2 : ExecResult)
    (hop : (["start", "stop", "mount", "unmount"] : List String).contains operation = false) :
    action operation vmName home up file r1 r2 =
      ([Event.errorMsg (makeErrorMsg "Invalid operation" (some operation))], file) ∧
    Event.readConfig ∉ (action operation vmName home up file r1 r2).1 ∧
    execsOf (action operation vmName home up file r1 r2).1 = [] := by
  have h : action operation vmName home up file r1 r2 =
      ([Event.errorMsg (makeErrorMsg "Invalid operation" (some operation))], file) := by
    unfold action
    rw [if_pos hop]
  refine ⟨h, ?_, ?_⟩ <;> rw [h] <;> simp

/-- C6 witness: `restart dev` is rejected up front even with a parsed config
present; nothing is read and nothing is spawned. -/
theorem invalid_operation_rejected_witness :
    action "restart" (some "dev") none none (ConfigFile.parsed devConfig) execOK execOK =
      ([Event.errorMsg (makeErrorMsg "Invalid operation" (some "restart"))],
        ConfigFile.parsed devConfig) ∧
    Event.readConfig ∉
      (action "restart" (some "dev") none none (ConfigFile.parsed devConfig) execOK execOK).1 ∧
    execsOf
      (action "restart" (some "dev") none none (ConfigFile.parsed devConfig) execOK execOK).1 =
      [] :=
  invalid_operation_rejected "restart" (some "dev") none none
    (ConfigFile.parsed devConfig) execOK execOK (by decide)

/-- C7: the loaded mapping is only ever mutated through the record aliased at
the requested key, and there only by the Mount step's three lazy defaults
(`ssh_port`, `hostname`, `mount_point_remote`), each written only when
absent; `name`, `username`, `mount_point_host` and `mount_delay` are never
written, and every other key's record is untouched. -/
theorem config_mutation_frame (operation : String) (vmName home up : Option String)
    (vms : Config) (r1 r2 : ExecResult) (k : String) (hk : k ≠ fmtS vmName)
    (vm : VMRecord) (hvm : configGet vms (fmtS vmName) = some vm) :
    ∃ vms',
      (action operation vmName home up (ConfigFile.parsed vms) r1 r2).2 =
        ConfigFile.parsed vms' ∧
      configGet vms' k = configGet vms k ∧
      ∃ vm', configGet vms' (fmtS vmName) = some vm' ∧ FrameOK vm vm' := by
  by_cases hop : (["start", "stop", "mount", "unmount"] : List String).contains operation = false
  · refine ⟨vms, ?_, rfl, vm, hvm, FrameOK_refl vm⟩
    unfold action
    rw [if_pos hop]
  · by_cases hn : vm.name.isNone
    · refine ⟨vms, ?_, rfl, vm, hvm, FrameOK_refl vm⟩
      unfold action
      rw [if_neg hop]
      simp [hvm, hn]
    · refine ⟨configSet vms (fmtS vmName) (dispatch operation vm r1 r2).2, ?_,
        configGet_configSet_ne vms (fmtS vmName) k _ hk,
        (dispatch operation vm r1 r2).2,
        configGet_configSet_self vms (fmtS vmName) _ vm hvm,
        dispatch_frame operation vm r1 r2⟩
      unfold action
      rw [if_neg hop]
      simp [hvm, hn]

/-- C7 witness: `mount dev` on a two-entry config leaves the other entry's
record unchanged and rewrites the `dev` record only within the allowed
default fields. -/
theorem config_mutation_frame_witness :
    ∃ vms',
      (action "mount" (some "dev") none none (ConfigFile.parsed twoConfig)
          execOK execOK).2 = ConfigFile.parsed vms' ∧
      configGet vms' "bare" = configGet twoConfig "bare" ∧
      ∃ vm', configGet vms' "dev" = some vm' ∧ FrameOK devVM vm' :=
  config_mutation_frame "mount" (some "dev") none none twoConfig execOK execOK
    "bare" (by decide) devVM rfl

/-- C8: `mount` and `unmount` on a non-mountable record that carries a `name`
field report "Missing mount config." and spawn no external command. -/
theorem mount_unmount_nonmountable_rejected (operation : String)
    (vmName home up : Option String) (vms : Config) (vm : VMRecord)
    (r1 r2 : ExecResult)
    (hop : operation = "mount" ∨ operation = "unmount")
    (hvm : configGet vms (fmtS vmName) = some vm)
    (hn : vm.name.isNone = false)
    (hmnt : isMountableVM vm = false) :
    (action operation vmName home up (ConfigFile.parsed vms) r1 r2).1 =
      [Event.readConfig, Event.errorMsg (makeErrorMsg "Missing mount config." none)] ∧
    execsOf (action operation vmName home up (ConfigFile.parsed vms) r1 r2).1 = [] := by
  have h : (action operation vmName home up (ConfigFile.parsed vms) r1 r2).1 =
      [Event.readConfig, Event.errorMsg (makeErrorMsg "Missing mount config." none)] := by
    rcases hop with h' | h' <;> subst h' <;> simp [action, dispatch, hvm, hn, hmnt]
  exact ⟨h, by rw [h]; rfl⟩

/-- C8 witness: `mount bare` on a record with only a `name` reports the
missing-mount-config error and spawns nothing. -/
theorem mount_unmount_nonmountable_rejected_witness :
    (action "mount" (some "bare") none none (ConfigFile.parsed twoConfig)
        execOK execOK).1 =
      [Event.readConfig, Event.errorMsg (makeErrorMsg "Missing mount config." none)] ∧
    execsOf (action "mount" (some "bare") none none (ConfigFile.parsed twoConfig)
        execOK execOK).1 = [] :=
  mount_unmount_nonmountable_rejected "mount" (some "bare") none none twoConfig
    bareVM execOK execOK (Or.inl rfl) rfl rfl rfl

/-- C9: for each of the four valid operations, a missing or unparsable config
file yields exactly one formatted error line and returns without
dispatching: no external command is spawned and no further validation
runs. -/
theorem config_file_error_aborts (operation : String) (vmName home up : Option String)
    (r1 r2 : ExecResult)
    (hop : (["start", "stop", "mount", "unmount"] : List String).contains operation = true) :
    ((action operation vmName home up ConfigFile.missing r1 r2).1 =
      [Event.errorMsg (makeErrorMsg "Could not find config file "
        (some (fmtS (getUserHome home up) ++ "/vvm.config.json")))]) ∧
    ((action operation vmName home up ConfigFile.unparsable r1 r2).1 =
      [Event.readConfig,
       Event.errorMsg (makeErrorMsg "Failed to parse config file "
        (some (fmtS (getUserHome home up) ++ "/vvm.config.json")))]) ∧
    execsOf (action operation vmName home up ConfigFile.missing r1 r2).1 = [] ∧
    execsOf (action operation vmName home up ConfigFile.unparsable r1 r2).1 = [] := by
  have hop' :
      ¬ ((["start", "stop", "mount", "unmount"] : List String).contains operation = false) := by
    rw [hop]
    simp
  refine ⟨?_, ?_, ?_, ?_⟩ <;> unfold action <;> rw [if_neg hop'] <;> rfl

/-- C9 witness: `unmount` with HOME=/home/bob and a missing (resp.
unparsable) config file prints the formatted error and spawns nothing. -/
theorem config_file_error_aborts_witness :
    ((action "unmount" none (some "/home/bob") none ConfigFile.missing
        execOK execOK).1 =
      [Event.errorMsg
        (makeErrorMsg "Could not find config file " (some "/home/bob/vvm.config.json"))]) ∧
    ((action "unmount" none (some "/home/bob") none ConfigFile.unparsable
        execOK execOK).1 =
      [Event.readConfig,
       Event.errorMsg
        (makeErrorMsg "Failed to parse config file " (some "/home/bob/vvm.config.json"))]) ∧
    execsOf (action "unmount" none (some "/home/bob") none ConfigFile.missing
        execOK execOK).1 = [] ∧
    execsOf (action "unmount" none (some "/home/bob") none ConfigFile.unparsable
        execOK execOK).1 = [] := by
  have h := config_file_error_aborts "unmount" none (some "/home/bob") none
    execOK execOK (by decide)
  simpa [getUserHome] using h

/-- C10: with the vm-name argument omitted there is no dedicated usage
error; the config is still read, the lookup uses the coerced key
"undefined" like any other key, and whenever the config has no such key the
trace is exactly the read plus "No config available for" (with no value
echoed, since the name is absent) and no external command is spawned. -/
theorem omitted_vm_name_lookup (operation : String) (home up : Option String)
    (vms : Config) (r1 r2 : ExecResult)
    (hop : (["start", "stop", "mount", "unmount"] : List String).contains operation = true)
    (hmiss : configGet vms "undefined" = none) :
    (action operation none home up (ConfigFile.parsed vms) r1 r2).1 =
      [Event.readConfig, Event.errorMsg (makeErrorMsg "No config available for" none)] ∧
    execsOf (action operation none home up (ConfigFile.parsed vms) r1 r2).1 = [] := by
  have hop' :
      ¬ ((["start", "stop", "mount", "unmount"] : List String).contains operation = false) := by
    rw [hop]
    simp
  refine ⟨?_, ?_⟩ <;> unfold action <;> rw [if_neg hop'] <;> simp [hmiss]

/-- C10 witness: `start` with no vm name against the example config (which
has no "undefined" key) reads the config, reports "No config available for",
and spawns nothing. -/
theorem omitted_vm_name_lookup_witness :
    (action "start" none none none (ConfigFile.parsed devConfig) execOK execOK).1 =
      [Event.readConfig, Event.errorMsg (makeErrorMsg "No config available for" none)] ∧
    execsOf (action "start" none none none (ConfigFile.parsed devConfig) execOK execOK).1 =
      [] :=
  omitted_vm_name_lookup "start" none none devConfig execOK execOK (by decide) rfl

end VMManager
